import Mathlib

/-!
Shallow embedding of the Warehouse Verification backend
(`src/backend/main.py`): scan ingestion (`create_scan`), recent history
(`get_scans`), global statistics (`get_stats`) and shift-bucketed
statistics (`get_shift_stats`), over a store modelled as a list of
committed rows. Timestamps are seconds since the Unix epoch, in UTC,
as stored by the database.
-/

namespace Warehouse

/-- A row of the `scans` table. `created_at` is the insertion timestamp
assigned by the store (epoch seconds, UTC); `result` the stored
comparison outcome. -/
structure ScanRecord where
  id : Nat
  barcode1 : String
  barcode2 : String
  result : Nat
  created_at : Nat
deriving DecidableEq

/-- Request model for submitting a new scan (`ScanRequest` in the source). -/
structure ScanRequest where
  barcode1 : String
  barcode2 : String
deriving DecidableEq

/-- Body returned by a successful `POST /api/scan`. -/
structure SubmitResponse where
  status : String
  result : String
deriving DecidableEq

/-- FastAPI `HTTPException`: a status code plus a detail message. -/
structure HTTPException where
  status_code : Nat
  detail : String
deriving DecidableEq

/-- Response model of `GET /api/stats` (`StatsResponse` in the source). -/
structure StatsResponse where
  total_scans : Nat
  total_passed : Nat
  total_failed : Nat
deriving DecidableEq

/-- One bucket of the shift statistics (`ShiftStat` in the source). -/
structure ShiftStat where
  shift_name : String
  scan_count : Nat
deriving DecidableEq

/-- Embedding of `create_scan` (src/backend/main.py, lines 124-149).
The transactional store is the list of committed rows. `insertErr`
models the outcome of the `INSERT`: `none` means it succeeds and is
committed, `some err` means `cursor.execute` raises
`mysql.connector.Error` with message `err`, after which `db.rollback()`
leaves the committed store unchanged. `nextId` and `now` are the `id`
and `created_at` the store assigns to the new row. -/
def create_scan (scan : ScanRequest) (db : List ScanRecord)
    (insertErr : Option String) (nextId now : Nat) :
    List ScanRecord × Except HTTPException SubmitResponse :=
  if scan.barcode1 = "" ∨ scan.barcode2 = "" then
    (db, .error ⟨400, "Both barcodes must be provided."⟩)
  else
    let result : Nat := if scan.barcode1 = scan.barcode2 then 1 else 0
    let result_text := "Match"
    match insertErr with
    | none =>
        (db ++ [⟨nextId, scan.barcode1, scan.barcode2, result, now⟩],
         Except.ok ⟨"success", result_text⟩)
    | some err =>
        (db, .error ⟨500, "Database insert error: " ++ err⟩)

/-- Row order used by `ORDER BY created_at DESC`: later rows sort first. -/
def recencyOrder (a b : ScanRecord) : Prop :=
  b.created_at ≤ a.created_at

instance : DecidableRel recencyOrder :=
  fun a b => Nat.decLe b.created_at a.created_at

instance : IsTotal ScanRecord recencyOrder :=
  ⟨fun a b => Nat.le_total b.created_at a.created_at⟩

instance : IsTrans ScanRecord recencyOrder :=
  ⟨fun _ _ _ h h' => Nat.le_trans h' h⟩

/-- Embedding of `get_scans` (lines 153-166): the rows sorted by
`created_at` descending (a stable sort by a total preorder), limited
to the first 10. -/
def get_scans (db : List ScanRecord) : List ScanRecord :=
  (List.insertionSort recencyOrder db).take 10

/-- Embedding of `get_stats` (lines 174-199): the three `COUNT`
queries — all rows, rows with `result = 1`, rows with `result = 0`. -/
def get_stats (db : List ScanRecord) : StatsResponse :=
  ⟨db.length,
   (db.filter (fun r => r.result == 1)).length,
   (db.filter (fun r => r.result == 0)).length⟩

/-- Offset added by `INTERVAL 5 HOUR + INTERVAL 30 MINUTE` (UTC → IST),
in seconds. -/
def istOffset : Nat := 5 * 3600 + 30 * 60

/-- SQL `HOUR(created_at + INTERVAL 5 HOUR + INTERVAL 30 MINUTE)` on an
epoch-seconds timestamp. -/
def istHour (t : Nat) : Nat := (t + istOffset) / 3600 % 24

/-- SQL `DATE(created_at + INTERVAL 5 HOUR + INTERVAL 30 MINUTE)`, as a
day index (days since the epoch). -/
def istDate (t : Nat) : Nat := (t + istOffset) / 86400

def SHIFT1 : String := "Shift 1 (12 AM - 8 AM)"

def SHIFT2 : String := "Shift 2 (8 AM - 4 PM)"

def SHIFT3 : String := "Shift 3 (4 PM - 12 AM)"

/-- The `CASE` expression of the shift query, applied to the IST hour. -/
def shiftCase (h : Nat) : String :=
  if 0 ≤ h ∧ h ≤ 7 then SHIFT1
  else if 8 ≤ h ∧ h ≤ 15 then SHIFT2
  else SHIFT3

/-- Shift label the query computes for a row. -/
def shiftOf (r : ScanRecord) : String := shiftCase (istHour r.created_at)

/-- Rows passing the query's `WHERE` clause: the local (IST) date of the
row equals the current local date (`now` embeds `NOW()`). -/
def todays (db : List ScanRecord) (now : Nat) : List ScanRecord :=
  db.filter (fun r => istDate r.created_at == istDate now)

/-- Result set of the `GROUP BY shift_name` query: one
`(shift_name, COUNT(*))` row per distinct label among today's rows. -/
def shiftQueryRows (db : List ScanRecord) (now : Nat) : List (String × Nat) :=
  (((todays db now).map shiftOf).dedup).map
    (fun n => (n, ((todays db now).map shiftOf).count n))

/-- One iteration of the Python loop over the query rows: assign the
row's count to its bucket when its name is one of the three dict keys,
otherwise leave the dict alone. The dict is carried as the triple of
the three bucket counts, in key order. -/
def applyRow (acc : Nat × Nat × Nat) (row : String × Nat) : Nat × Nat × Nat :=
  if row.1 = SHIFT1 then (row.2, acc.2.1, acc.2.2)
  else if row.1 = SHIFT2 then (acc.1, row.2, acc.2.2)
  else if row.1 = SHIFT3 then (acc.1, acc.2.1, row.2)
  else acc

/-- The whole loop, started from the defaults `shift_names = {.. : 0}`. -/
def applyRows (rows : List (String × Nat)) : Nat × Nat × Nat :=
  rows.foldl applyRow (0, 0, 0)

/-- Embedding of `get_shift_stats` (lines 207-252): run the grouped
query, fold its rows into the default dict, and emit the three buckets
in the dict's insertion order. -/
def get_shift_stats (db : List ScanRecord) (now : Nat) : List ShiftStat :=
  let counts := applyRows (shiftQueryRows db now)
  [⟨SHIFT1, counts.1⟩, ⟨SHIFT2, counts.2.1⟩, ⟨SHIFT3, counts.2.2⟩]

/-- Store obtained by inserting 15 records in order through
`create_scan`; record number `i` (1-based) gets id `i` and
`created_at` `i`. -/
def demoStore : List ScanRecord :=
  (List.range 15).foldl
    (fun db i => (create_scan ⟨"A", "A"⟩ db none (i + 1) (i + 1)).1) []

/-- C1: for every pair of non-empty input strings, `create_scan`
appends exactly one row, storing both barcodes verbatim, with
`result = 1` iff the two barcodes are equal as strings (exact,
case-sensitive, no trimming) and `result = 0` otherwise. -/
theorem create_scan_stores_exact_equality (b1 b2 : String)
    (db : List ScanRecord) (nextId now : Nat)
    (h1 : b1 ≠ "") (h2 : b2 ≠ "") :
    ∃ rec : ScanRecord,
      (create_scan ⟨b1, b2⟩ db none nextId now).1 = db ++ [rec] ∧
      rec.barcode1 = b1 ∧ rec.barcode2 = b2 ∧
      (rec.result = 1 ↔ b1 = b2) ∧ (rec.result = 0 ↔ ¬b1 = b2) := by
  refine ⟨⟨nextId, b1, b2, if b1 = b2 then 1 else 0, now⟩, ?_, rfl, rfl, ?_, ?_⟩
  · simp [create_scan, h1, h2]
  · by_cases hb : b1 = b2 <;> simp [hb]
  · by_cases hb : b1 = b2 <;> simp [hb]

/-- Witness for C1 at the concrete inputs "AB", "AB". -/
theorem create_scan_stores_exact_equality_witness :
    ∃ rec : ScanRecord,
      (create_scan ⟨"AB", "AB"⟩ [] none 1 5).1 = [] ++ [rec] ∧
      rec.barcode1 = "AB" ∧ rec.barcode2 = "AB" ∧
      (rec.result = 1 ↔ ("AB" : String) = "AB") ∧
      (rec.result = 0 ↔ ¬("AB" : String) = "AB") :=
  create_scan_stores_exact_equality "AB" "AB" [] 1 5 (by decide) (by decide)

/-- C2 counterexample: on the valid request ("A", "B") the computed
result is 0, yet the successful response carries the label "Match",
not "No Match" — the label does not reflect the comparison outcome. -/
theorem create_scan_label_counterexample :
    (if ("A" : String) = "B" then (1 : Nat) else 0) = 0 ∧
    (create_scan ⟨"A", "B"⟩ [] none 1 0).2 =
      Except.ok ⟨"success", "Match"⟩ ∧
    ("Match" : String) ≠ "No Match" := by
  refine ⟨by decide, rfl, by decide⟩

/-- C2 amended: every successful submit-scan response is
`{status: "success", result: "Match"}`, whatever the comparison
outcome — the source sets `result_text = "Match"` unconditionally. -/
theorem create_scan_label_always_match (b1 b2 : String)
    (db : List ScanRecord) (nextId now : Nat)
    (h1 : b1 ≠ "") (h2 : b2 ≠ "") :
    (create_scan ⟨b1, b2⟩ db none nextId now).2 =
      Except.ok ⟨"success", "Match"⟩ := by
  simp [create_scan, h1, h2]

/-- Witness for the amended C2 on a non-matching pair. -/
theorem create_scan_label_always_match_witness :
    (create_scan ⟨"A", "B"⟩ [] none 1 0).2 =
      Except.ok ⟨"success", "Match"⟩ :=
  create_scan_label_always_match "A" "B" [] 1 0 (by decide) (by decide)

/-- C8: an empty barcode makes `create_scan` fail with the 400
validation error — a class distinct from the 500 storage errors — and
the committed store is returned untouched; the insert is never
attempted, whatever its outcome would have been. -/
theorem create_scan_empty_validation (b1 b2 : String)
    (db : List ScanRecord) (insertErr : Option String) (nextId now : Nat)
    (h : b1 = "" ∨ b2 = "") :
    create_scan ⟨b1, b2⟩ db insertErr nextId now =
      (db, Except.error ⟨400, "Both barcodes must be provided."⟩) ∧
    (400 : Nat) ≠ 500 := by
  refine ⟨?_, by decide⟩
  rcases h with h | h <;> simp [create_scan, h]

/-- Witness for C8: empty first barcode, insert poised to succeed. -/
theorem create_scan_empty_validation_witness :
    create_scan ⟨"", "X"⟩ [⟨1, "A", "A", 1, 0⟩] none 2 9 =
      ([⟨1, "A", "A", 1, 0⟩],
       Except.error ⟨400, "Both barcodes must be provided."⟩) ∧
    (400 : Nat) ≠ 500 :=
  create_scan_empty_validation "" "X" [⟨1, "A", "A", 1, 0⟩] none 2 9
    (Or.inl rfl)

/-- C9: when the `INSERT` fails, `create_scan` fails with the 500
storage error carrying the database message, and after the rollback
the committed store equals the pre-call store — nothing of the write
is committed. -/
theorem create_scan_insert_failure_rollback (b1 b2 : String)
    (db : List ScanRecord) (err : String) (nextId now : Nat)
    (h1 : b1 ≠ "") (h2 : b2 ≠ "") :
    create_scan ⟨b1, b2⟩ db (some err) nextId now =
      (db, Except.error ⟨500, "Database insert error: " ++ err⟩) := by
  simp [create_scan, h1, h2]

/-- Witness for C9 on a concrete failing insert. -/
theorem create_scan_insert_failure_rollback_witness :
    create_scan ⟨"A", "B"⟩ [⟨1, "A", "A", 1, 0⟩] (some "pool gone") 2 9 =
      ([⟨1, "A", "A", 1, 0⟩],
       Except.error ⟨500, "Database insert error: " ++ "pool gone"⟩) :=
  create_scan_insert_failure_rollback "A" "B" [⟨1, "A", "A", 1, 0⟩]
    "pool gone" 2 9 (by decide) (by decide)

/-- Auxiliary: a store whose rows all carry result 0 or 1 splits into
the passed rows and the failed rows. -/
theorem length_eq_passed_add_failed (db : List ScanRecord)
    (h : ∀ r ∈ db, r.result = 0 ∨ r.result = 1) :
    db.length = (db.filter (fun r => r.result == 1)).length +
      (db.filter (fun r => r.result == 0)).length := by
  induction db with
  | nil => rfl
  | cons r l ih =>
    have hr := h r (List.mem_cons_self r l)
    have hl := ih fun x hx => h x (List.mem_cons_of_mem r hx)
    rcases hr with hr | hr <;> simp [List.filter_cons, hr, hl] <;> omega

/-- C6: `get_stats` reports the total row count, the count of rows with
result 1 and the count of rows with result 0, and — for any store whose
results are all 0 or 1, the invariant every `create_scan` write
maintains — total = passed + failed. -/
theorem get_stats_partition (db : List ScanRecord)
    (h : ∀ r ∈ db, r.result = 0 ∨ r.result = 1) :
    (get_stats db).total_scans = db.length ∧
    (get_stats db).total_passed =
      (db.filter (fun r => r.result == 1)).length ∧
    (get_stats db).total_failed =
      (db.filter (fun r => r.result == 0)).length ∧
    (get_stats db).total_scans =
      (get_stats db).total_passed + (get_stats db).total_failed :=
  ⟨rfl, rfl, rfl, length_eq_passed_add_failed db h⟩

/-- Witness for C6 on a two-row store with one pass and one fail. -/
theorem get_stats_partition_witness :
    (get_stats [⟨1, "A", "A", 1, 2⟩, ⟨2, "A", "B", 0, 3⟩]).total_scans =
      ([⟨1, "A", "A", 1, 2⟩, ⟨2, "A", "B", 0, 3⟩] : List ScanRecord).length ∧
    (get_stats [⟨1, "A", "A", 1, 2⟩, ⟨2, "A", "B", 0, 3⟩]).total_passed =
      (([⟨1, "A", "A", 1, 2⟩, ⟨2, "A", "B", 0, 3⟩] : List ScanRecord).filter
        (fun r => r.result == 1)).length ∧
    (get_stats [⟨1, "A", "A", 1, 2⟩, ⟨2, "A", "B", 0, 3⟩]).total_failed =
      (([⟨1, "A", "A", 1, 2⟩, ⟨2, "A", "B", 0, 3⟩] : List ScanRecord).filter
        (fun r => r.result == 0)).length ∧
    (get_stats [⟨1, "A", "A", 1, 2⟩, ⟨2, "A", "B", 0, 3⟩]).total_scans =
      (get_stats [⟨1, "A", "A", 1, 2⟩, ⟨2, "A", "B", 0, 3⟩]).total_passed +
      (get_stats [⟨1, "A", "A", 1, 2⟩, ⟨2, "A", "B", 0, 3⟩]).total_failed :=
  get_stats_partition [⟨1, "A", "A", 1, 2⟩, ⟨2, "A", "B", 0, 3⟩] (by decide)

/-- C4: the bucket of a counted record is a pure function of the hour of
its timestamp shifted by exactly 5 hours 30 minutes, and that function
sends hour values below 8 to Shift 1, values in [8, 16) to Shift 2, and
every other value — out-of-range ones included — to Shift 3. -/
theorem shift_bucket_by_ist_hour (r : ScanRecord) (h : Nat) :
    shiftOf r =
      shiftCase ((r.created_at + (5 * 3600 + 30 * 60)) / 3600 % 24) ∧
    shiftCase h =
      (if h < 8 then SHIFT1 else if h < 16 then SHIFT2 else SHIFT3) := by
  refine ⟨rfl, ?_⟩
  unfold shiftCase
  split_ifs <;> first | rfl | omega

/-- C5: a row is in the "today" set iff it is in the store and its
+5:30-shifted calendar date equals the +5:30-shifted date of the
current instant; concretely, a record stamped 2024-01-01T19:00:00Z
(epoch 1704135600) falls on local day 19724 (2024-01-02), not its UTC
day 19723 (2024-01-01), and is counted in Shift 1 of that local day. -/
theorem todays_membership_and_rollover (db : List ScanRecord) (now : Nat)
    (r : ScanRecord) :
    (r ∈ todays db now ↔
      r ∈ db ∧ istDate r.created_at = istDate now) ∧
    istDate 1704135600 = 19724 ∧
    1704135600 / 86400 = 19723 ∧
    shiftOf ⟨1, "A", "A", 1, 1704135600⟩ = SHIFT1 ∧
    get_shift_stats [⟨1, "A", "A", 1, 1704135600⟩] 1704135600 =
      [⟨SHIFT1, 1⟩, ⟨SHIFT2, 0⟩, ⟨SHIFT3, 0⟩] := by
  refine ⟨?_, by decide, by decide, by decide, by decide⟩
  simp [todays, List.mem_filter]

/-- C10: the shift list always comes out in the fixed order Shift 1,
Shift 2, Shift 3, and the loop body drops any aggregation row whose
name is not exactly one of the three dict keys, leaving every bucket
count as it was. -/
theorem get_shift_stats_order_and_unknown_rows (db : List ScanRecord)
    (now : Nat) (row : String × Nat) (acc : Nat × Nat × Nat)
    (h : row.1 ≠ SHIFT1 ∧ row.1 ≠ SHIFT2 ∧ row.1 ≠ SHIFT3) :
    (get_shift_stats db now).map ShiftStat.shift_name =
      [SHIFT1, SHIFT2, SHIFT3] ∧
    applyRow acc row = acc :=
  ⟨rfl, by simp [applyRow, h.1, h.2.1, h.2.2]⟩

/-- Witness for C10 on a row labelled "Shift 4". -/
theorem get_shift_stats_order_and_unknown_rows_witness :
    (get_shift_stats [] 0).map ShiftStat.shift_name =
      [SHIFT1, SHIFT2, SHIFT3] ∧
    applyRow (1, 2, 3) ("Shift 4", 7) = (1, 2, 3) :=
  get_shift_stats_order_and_unknown_rows [] 0 ("Shift 4", 7) (1, 2, 3)
    (by refine ⟨?_, ?_, ?_⟩ <;> decide)

/-- C7: `get_scans` returns min(10, store size) records — at most 10,
fewer exactly when the store holds fewer — sorted newest first by
`created_at`, all drawn from the store; and on the store built by
inserting 15 records it returns exactly the 10 most recently created,
newest first. -/
theorem get_scans_recent_ten (db : List ScanRecord) :
    (get_scans db).length = min 10 db.length ∧
    List.Sorted recencyOrder (get_scans db) ∧
    (∀ r ∈ get_scans db, r ∈ db) ∧
    get_scans demoStore =
      [⟨15, "A", "A", 1, 15⟩, ⟨14, "A", "A", 1, 14⟩, ⟨13, "A", "A", 1, 13⟩,
       ⟨12, "A", "A", 1, 12⟩, ⟨11, "A", "A", 1, 11⟩, ⟨10, "A", "A", 1, 10⟩,
       ⟨9, "A", "A", 1, 9⟩, ⟨8, "A", "A", 1, 8⟩, ⟨7, "A", "A", 1, 7⟩,
       ⟨6, "A", "A", 1, 6⟩] := by
  refine ⟨?_, ?_, ?_, by decide⟩
  · rw [get_scans, List.length_take,
      (List.perm_insertionSort recencyOrder db).length_eq]
  · exact List.Pairwise.sublist (List.take_sublist 10 _)
      (List.sorted_insertionSort recencyOrder db)
  · intro r hr
    exact (List.mem_insertionSort recencyOrder).mp
      ((List.take_sublist 10 _).subset hr)

/-- Auxiliary: looking up the key at the head of an association list. -/
theorem lookup_cons_self {β : Type} (n : String) (c : β)
    (rows : List (String × β)) :
    ((n, c) :: rows).lookup n = some c := by
  simp [List.lookup]

/-- Auxiliary: looking up a key different from the head key. -/
theorem lookup_cons_ne {β : Type} (x n : String) (c : β)
    (rows : List (String × β)) (h : x ≠ n) :
    ((n, c) :: rows).lookup x = rows.lookup x := by
  have hb : (x == n) = false := beq_eq_false_iff_ne.mpr h
  simp [List.lookup, hb]

/-- Auxiliary: a key absent from an association list looks up to none. -/
theorem lookup_eq_none_of_not_mem {β : Type} (rows : List (String × β))
    (x : String) (hx : x ∉ rows.map Prod.fst) : rows.lookup x = none := by
  induction rows with
  | nil => rfl
  | cons p rows ih =>
    obtain ⟨n, c⟩ := p
    simp only [List.map_cons, List.mem_cons] at hx
    push_neg at hx
    rw [lookup_cons_ne _ _ _ _ hx.1, ih hx.2]

/-- Auxiliary: lookup in a list tabulating a function over keys. -/
theorem lookup_map_key {β : Type} (l : List String) (f : String → β)
    (x : String) :
    (l.map (fun n => (n, f n))).lookup x =
      if x ∈ l then some (f x) else none := by
  induction l with
  | nil => rfl
  | cons a l ih =>
    by_cases hx : x = a
    · subst hx
      rw [List.map_cons, lookup_cons_self]
      simp
    · rw [List.map_cons, lookup_cons_ne _ _ _ _ hx, ih]
      simp [List.mem_cons, hx]

/-- Auxiliary: over rows with pairwise-distinct names, the Python loop
ends with each bucket holding its row's count if a row with its key is
present and its starting value otherwise. -/
theorem foldl_applyRow_eq_lookup (rows : List (String × Nat))
    (acc : Nat × Nat × Nat) (hnd : (rows.map Prod.fst).Nodup) :
    rows.foldl applyRow acc =
      ((rows.lookup SHIFT1).getD acc.1,
       (rows.lookup SHIFT2).getD acc.2.1,
       (rows.lookup SHIFT3).getD acc.2.2) := by
  induction rows generalizing acc with
  | nil => rfl
  | cons p rows ih =>
    obtain ⟨n, c⟩ := p
    simp only [List.map_cons, List.nodup_cons] at hnd
    obtain ⟨hn, hnd⟩ := hnd
    have ne12 : SHIFT1 ≠ SHIFT2 := by decide
    have ne13 : SHIFT1 ≠ SHIFT3 := by decide
    have ne23 : SHIFT2 ≠ SHIFT3 := by decide
    rw [List.foldl_cons, ih _ hnd]
    by_cases h1 : n = SHIFT1
    · subst h1
      rw [lookup_cons_self, lookup_cons_ne _ _ _ _ ne12.symm,
        lookup_cons_ne _ _ _ _ ne13.symm,
        lookup_eq_none_of_not_mem rows SHIFT1 hn]
      simp [applyRow]
    · by_cases h2 : n = SHIFT2
      · subst h2
        rw [lookup_cons_self, lookup_cons_ne _ _ _ _ ne12,
          lookup_cons_ne _ _ _ _ ne23.symm,
          lookup_eq_none_of_not_mem rows SHIFT2 hn]
        simp [applyRow, ne12.symm]
      · by_cases h3 : n = SHIFT3
        · subst h3
          rw [lookup_cons_self, lookup_cons_ne _ _ _ _ ne13,
            lookup_cons_ne _ _ _ _ ne23,
            lookup_eq_none_of_not_mem rows SHIFT3 hn]
          simp [applyRow, ne13.symm, ne23.symm]
        · rw [lookup_cons_ne _ _ _ _ (Ne.symm h1),
            lookup_cons_ne _ _ _ _ (Ne.symm h2),
            lookup_cons_ne _ _ _ _ (Ne.symm h3)]
          simp [applyRow, h1, h2, h3]

/-- Auxiliary: the loop applied to the tabulated per-label counts of a
name list recovers the counts of the three shift labels. -/
theorem applyRows_dedup_count (names : List String) :
    applyRows (names.dedup.map (fun n => (n, names.count n))) =
      (names.count SHIFT1, names.count SHIFT2, names.count SHIFT3) := by
  have hnd : ((names.dedup.map (fun n => (n, names.count n))).map
      Prod.fst).Nodup := by
    rw [List.map_map]
    have hid : (Prod.fst ∘ fun n : String => (n, names.count n)) = id := rfl
    rw [hid, List.map_id]
    exact names.nodup_dedup
  rw [applyRows, foldl_applyRow_eq_lookup _ _ hnd]
  have hcomp : ∀ s : String,
      ((names.dedup.map (fun n => (n, names.count n))).lookup s).getD 0 =
        names.count s := by
    intro s
    rw [lookup_map_key]
    by_cases hs : s ∈ names.dedup
    · simp [hs]
    · have hs' : s ∉ names := fun hin => hs (List.mem_dedup.2 hin)
      simp [hs, List.count_eq_zero.2 hs']
  simp [hcomp]

/-- Auxiliary: the shift label of every row is one of the three keys. -/
theorem shiftCase_mem_three (h : Nat) :
    shiftCase h = SHIFT1 ∨ shiftCase h = SHIFT2 ∨ shiftCase h = SHIFT3 := by
  unfold shiftCase
  split_ifs <;> simp

/-- Auxiliary: a list of labels drawn from the three shift keys has as
many elements as the three label counts put together. -/
theorem count_three_partition (names : List String)
    (h : ∀ n ∈ names, n = SHIFT1 ∨ n = SHIFT2 ∨ n = SHIFT3) :
    names.count SHIFT1 + names.count SHIFT2 + names.count SHIFT3 =
      names.length := by
  induction names with
  | nil => rfl
  | cons a l ih =>
    have ha := h a (List.mem_cons_self a l)
    have hl := ih fun n hn => h n (List.mem_cons_of_mem a hn)
    have ne12 : SHIFT1 ≠ SHIFT2 := by decide
    have ne13 : SHIFT1 ≠ SHIFT3 := by decide
    have ne23 : SHIFT2 ≠ SHIFT3 := by decide
    rcases ha with ha | ha | ha <;> subst ha <;>
      simp [List.count_cons, ne12, ne13, ne23, ne12.symm, ne13.symm,
        ne23.symm] <;> omega

/-- C3: `get_shift_stats` always returns exactly the three named
buckets, zero-count ones included, and their counts sum to the number
of rows whose +5:30-shifted calendar date is today's local date — not
to the global total, as the final conjunct shows on a store whose one
row is two local days old. -/
theorem get_shift_stats_three_buckets_sum (db : List ScanRecord)
    (now : Nat) :
    (get_shift_stats db now).map ShiftStat.shift_name =
      [SHIFT1, SHIFT2, SHIFT3] ∧
    ((get_shift_stats db now).map ShiftStat.scan_count).sum =
      (todays db now).length ∧
    ((get_shift_stats [⟨1, "A", "A", 1, 0⟩] 172800).map
        ShiftStat.scan_count).sum = 0 ∧
    ([⟨1, "A", "A", 1, 0⟩] : List ScanRecord).length = 1 := by
  refine ⟨rfl, ?_, by decide, by decide⟩
  have hmem : ∀ n ∈ (todays db now).map shiftOf,
      n = SHIFT1 ∨ n = SHIFT2 ∨ n = SHIFT3 := by
    intro n hn
    obtain ⟨r, _, rfl⟩ := List.mem_map.mp hn
    exact shiftCase_mem_three (istHour r.created_at)
  have hpart := count_three_partition _ hmem
  have hlen : ((todays db now).map shiftOf).length =
      (todays db now).length := List.length_map _ _
  have hmap : (get_shift_stats db now).map ShiftStat.scan_count =
      [(applyRows (shiftQueryRows db now)).1,
       (applyRows (shiftQueryRows db now)).2.1,
       (applyRows (shiftQueryRows db now)).2.2] := rfl
  have hq : shiftQueryRows db now =
      ((todays db now).map shiftOf).dedup.map
        (fun n => (n, ((todays db now).map shiftOf).count n)) := rfl
  rw [hmap, hq, applyRows_dedup_count]
  dsimp only
  simp only [List.sum_cons, List.sum_nil]
  omega

end Warehouse
